import Mathlib

/-!
# Verification of the parselmouth conda↔PyPI mapping pipeline

A shallow embedding, in Lean 4, of the parts of `parselmouth` (a pipeline
that maps conda artifacts to the PyPI distributions they embed) that the
specification's claims are about, together with theorems settling those
claims.  Every definition is translated from the Python source under
`src/parselmouth/internals/` unless its doc comment says otherwise
(definitions marked "Modelled from the spec" correspond to object-store
gateway methods that are called by the sources but whose implementations
are not part of the source tree, and stand-ins for external libraries).

Python idioms are embedded explicitly:
* `str` methods are embedded as structural functions on character lists so
  that every definition evaluates inside the kernel (`pySplit`, `pyReplace`,
  `pySubstr`, ... follow CPython semantics, restricted to the single-byte
  separators and ASCII data the pipeline uses);
* dictionaries keyed by strings become association lists that preserve
  insertion order, with `d[k] = v` updating in place (`alInsert`);
* pydantic-v2 model membership (`x in model` with no `__contains__`)
  becomes `pydanticModelContains`, see its doc comment;
* exceptions become an explicit `BackendOutcome`/`Option` result.
-/

namespace Parselmouth

/-! ## Python string primitives -/

/-- Is `pat` a prefix of `l` (character lists)? -/
def listStarts : List Char → List Char → Bool
  | [], _ => true
  | _ :: _, [] => false
  | a :: as, b :: bs => a == b && listStarts as bs

/-- Does `l` contain `pat` as a contiguous run (Python `pat in s`)? -/
def charsContains (pat : List Char) : List Char → Bool
  | [] => listStarts pat []
  | c :: rest => listStarts pat (c :: rest) || charsContains pat rest

/-- Python's substring test `needle in haystack`. -/
def pySubstr (needle haystack : String) : Bool :=
  charsContains needle.data haystack.data

/-- Index of the first occurrence of `pat` in `l`, if any
(Python `s.find(pat)` restricted to successful searches). -/
def findSubIdx (pat : List Char) : List Char → Option Nat
  | [] => if listStarts pat [] then some 0 else none
  | c :: rest =>
    if listStarts pat (c :: rest) then some 0
    else (findSubIdx pat rest).map (· + 1)

/-- Python `s[:s.index(pat)]` (total: identity when `pat` is absent). -/
def takeBeforeFirst (pat : String) (s : String) : String :=
  match findSubIdx pat.data s.data with
  | some i => ⟨s.data.take i⟩
  | none => s

/-- Python `s[:s.rfind(c)]` for a single character (identity when absent). -/
def takeBeforeLastChar (c : Char) (s : String) : String :=
  match s.data.reverse.findIdx? (· == c) with
  | some i => ⟨s.data.take (s.data.length - 1 - i)⟩
  | none => s

/-- Python `s.split(sep)` for a single-character separator, on char lists.
Always returns at least one (possibly empty) group. -/
def splitChar (sep : Char) : List Char → List (List Char)
  | [] => [[]]
  | c :: rest =>
    if c == sep then [] :: splitChar sep rest
    else
      match splitChar sep rest with
      | [] => [[c]]
      | g :: gs => (c :: g) :: gs

/-- Python `s.split(sep)` for a single-character separator. -/
def pySplit (s : String) (sep : Char) : List String :=
  (splitChar sep s.data).map (fun g => ⟨g⟩)

/-- Python `sep.join(parts)` for a single-character separator. -/
def joinChar (sep : Char) : List String → String
  | [] => ""
  | [x] => x
  | x :: y :: rest => x ++ String.singleton sep ++ joinChar sep (y :: rest)

/-- Python `s.replace(old, new)` on char lists: replace non-overlapping
occurrences left to right.  The `fuel` argument only drives the recursion:
every step consumes at least one character, so any `fuel ≥ s.length` (as
passed by `pyReplace`) gives the replacement of the whole list and the
fuel-exhausted base case is never reached. -/
def pyReplaceF (pat sub : List Char) : Nat → List Char → List Char
  | _, [] => []
  | 0, s => s
  | n + 1, c :: rest =>
    if pat.length > 0 && listStarts pat (c :: rest) then
      sub ++ pyReplaceF pat sub n (rest.drop (pat.length - 1))
    else c :: pyReplaceF pat sub n rest

/-- Python `s.replace(pat, sub)`: every occurrence is replaced, not only a
trailing one. -/
def pyReplace (s pat sub : String) : String :=
  ⟨pyReplaceF pat.data sub.data s.data.length s.data⟩

/-- Python string comparison `a < b` on char lists: lexicographic by code
point, a proper prefix being smaller. -/
def charListLt : List Char → List Char → Bool
  | [], [] => false
  | [], _ :: _ => true
  | _ :: _, [] => false
  | a :: as, b :: bs => decide (a.toNat < b.toNat) || (a == b && charListLt as bs)

/-- Python string comparison `a < b`. -/
def strLt (a b : String) : Bool := charListLt a.data b.data

/-- Python `s.startswith(pre)`. -/
def strStartsWith (s pre : String) : Bool := listStarts pre.data s.data

/-- Python `s.endswith(suf)`. -/
def strEndsWith (s suf : String) : Bool := listStarts suf.data.reverse s.data.reverse

/-- Python `s[:-n]` / suffix removal. -/
def strDropRight (s : String) (n : Nat) : String :=
  ⟨s.data.take (s.data.length - n)⟩

/-- ASCII lowering of one character (Python `str.lower` restricted to the
ASCII data handled by the pipeline). -/
def asciiLowerChar (c : Char) : Char :=
  if 'A' ≤ c ∧ c ≤ 'Z' then Char.ofNat (c.toNat + 32) else c

/-- Python `s.lower()` for ASCII strings. -/
def asciiLower (s : String) : String := ⟨s.data.map asciiLowerChar⟩

/-- Python `str.splitlines` for strings whose only separator is `"\n"`:
`""` gives `[]`, and a trailing newline yields no final empty line. -/
def pySplitlines (s : String) : List String :=
  let ls := pySplit s '\n'
  if ls.getLast? = some "" then ls.dropLast else ls

/-- `Path(p).parts` for the relative paths appearing inside artifacts:
the `"/"`-separated components, ignoring empty components. -/
def pathParts (p : String) : List String :=
  (pySplit p '/').filter (· ≠ "")

/-! ## Insertion-ordered dictionaries (Python `dict`) -/

/-- Python `d.get(k)` on an insertion-ordered dictionary. -/
def alGet {α : Type} (l : List (String × α)) (k : String) : Option α :=
  (l.find? (fun p => p.1 == k)).map (·.2)

/-- Python `d[k] = v`: update in place when the key exists, append otherwise. -/
def alInsert {α : Type} (l : List (String × α)) (k : String) (v : α) :
    List (String × α) :=
  match l with
  | [] => [(k, v)]
  | (k0, v0) :: rest =>
    if k0 == k then (k0, v) :: rest else (k0, v0) :: alInsert rest k v

/-- `defaultdict` update: apply `f` to the entry for `k`, defaulting to `d`. -/
def alUpdate {α : Type} (l : List (String × α)) (k : String) (d : α) (f : α → α) :
    List (String × α) :=
  match l with
  | [] => [(k, f d)]
  | (k0, v0) :: rest =>
    if k0 == k then (k0, f v0) :: rest else (k0, v0) :: alUpdate rest k d f

/-- Python `set.add` on a set represented by its insertion-ordered elements. -/
def setAdd (l : List String) (x : String) : List String :=
  if l.contains x then l else l ++ [x]

/-- Helper for `dedupKeepFirst`, carrying the keys already emitted. -/
def dedupKeepFirstGo (seen : List String) : List String → List String
  | [] => []
  | x :: xs =>
    if seen.contains x then dedupKeepFirstGo seen xs
    else x :: dedupKeepFirstGo (x :: seen) xs

/-- `list(dict.fromkeys(xs))`: deduplicate keeping first occurrences. -/
def dedupKeepFirst (l : List String) : List String :=
  dedupKeepFirstGo [] l

/-- Stable insertion of a keyed pair into a key-sorted list (Python `sorted`
on `d.items()` compares the string keys first; keys are unique in all uses
below, so the tuple comparison never goes past the key). -/
def insertByKey {α : Type} (x : String × α) : List (String × α) → List (String × α)
  | [] => [x]
  | y :: ys => if strLt x.1 y.1 then x :: y :: ys else y :: insertByKey x ys

/-- Python `sorted(d.items())` for a string-keyed dictionary. -/
def sortByKey {α : Type} (l : List (String × α)) : List (String × α) :=
  l.foldr insertByKey []

/-- Stable insertion into a sorted list of strings. -/
def insertStr (x : String) : List String → List String
  | [] => [x]
  | y :: ys => if strLt x y then x :: y :: ys else y :: insertStr x ys

/-- Python `sorted(xs)` for a list of strings. -/
def sortStrings (l : List String) : List String :=
  l.foldr insertStr []

/-! ## `parse_conda_filename` (package_relations.py, lines 45–71) -/

/-- Python `s.rsplit("-", 2)`: split from the right at most twice.  With at
most three fields it agrees with a full split; otherwise the left remainder
is rejoined with `"-"`. -/
def pyRsplitDash2 (s : String) : List String :=
  let ps := pySplit s '-'
  if ps.length ≤ 3 then ps
  else joinChar '-' (ps.take (ps.length - 2)) :: ps.drop (ps.length - 2)

/-- `parse_conda_filename` from `package_relations.py`: note that
`filename.replace('.conda', '').replace('.tar.bz2', '')` removes every
occurrence of those substrings, not only a trailing extension. -/
def parse_conda_filename (filename : String) : String × String :=
  let name := pyReplace (pyReplace filename ".conda" "") ".tar.bz2" ""
  let parts := pyRsplitDash2 name
  if parts.length ≥ 3 then
    (parts.getD (parts.length - 2) "", parts.getD (parts.length - 1) "")
  else ("unknown", "unknown")

/-- The claim's reading of `parse_conda_filename`: remove a `.conda` or
`.tar.bz2` EXTENSION (only a trailing suffix), then split from the right
exactly as the code does. -/
def parse_conda_filename_claim (filename : String) : String × String :=
  let name :=
    if strEndsWith filename ".conda" then strDropRight filename 6
    else if strEndsWith filename ".tar.bz2" then strDropRight filename 8
    else filename
  let parts := pyRsplitDash2 name
  if parts.length ≥ 3 then
    (parts.getD (parts.length - 2) "", parts.getD (parts.length - 1) "")
  else ("unknown", "unknown")

/-! ## Relations table and PyPI lookups (package_relations.py) -/

/-- `PackageRelation` (package_relations.py, lines 88–118): one row of the
relations table, stating that a conda package includes a PyPI package. -/
structure PackageRelation where
  conda_name : String
  conda_filename : String
  conda_hash : String
  pypi_name : String
  pypi_version : String
  channel : String
  direct_url : Option (List String)
deriving DecidableEq

/-- `CondaPackageVersion` (package_relations.py, lines 74–85). -/
structure CondaPackageVersion where
  name : String
  version : String
  builds : List String
deriving DecidableEq

/-- `PyPIPackageLookup` (package_relations.py, lines 366–383): the simplified
per-PyPI-name lookup object.  NOTE: in the source, `conda_versions` maps each
PyPI version to a LIST of conda package names. -/
structure PyPIPackageLookup where
  format_version : String
  channel : String
  pypi_name : String
  conda_versions : List (String × List String)
deriving DecidableEq

/-- The nested `defaultdict` built by `generate_pypi_to_conda_lookups`:
pypi_name → pypi_version → conda_name → conda_version → set of builds. -/
abbrev BuildsDict := List (String × String)

/-- One loop iteration of `RelationsTable.generate_pypi_to_conda_lookups`
(package_relations.py, lines 280–285): parse the conda filename and add the
build string to the nested structure. -/
def addRelationToLookup
    (acc : List (String × List (String × List (String × List (String × List String)))))
    (r : PackageRelation) :
    List (String × List (String × List (String × List (String × List String)))) :=
  let vb := parse_conda_filename r.conda_filename
  alUpdate acc r.pypi_name [] (fun m1 =>
    alUpdate m1 r.pypi_version [] (fun m2 =>
      alUpdate m2 r.conda_name [] (fun m3 =>
        alUpdate m3 vb.1 [] (fun builds => setAdd builds vb.2))))

/-- `RelationsTable.generate_pypi_to_conda_lookups` (package_relations.py,
lines 265–305): build the nested structure from the relations, then flatten
it to `pypi_name → pypi_version → list of CondaPackageVersion`, iterating
conda names and conda versions in sorted order with sorted builds. -/
def generate_pypi_to_conda_lookups (relations : List PackageRelation) :
    List (String × List (String × List CondaPackageVersion)) :=
  let lookup := relations.foldl addRelationToLookup []
  lookup.map (fun pnv =>
    (pnv.1, pnv.2.map (fun pvv =>
      (pvv.1,
        ((sortByKey pvv.2).map (fun cnv =>
          (sortByKey cnv.2).map (fun cvb =>
            CondaPackageVersion.mk cnv.1 cvb.1 (sortStrings cvb.2)))).flatten))))

/-- `create_pypi_lookup_files` (package_relations.py, lines 413–444): derive
the simplified lookup for each PyPI name.  Each version maps to the list of
unique conda package names (`list(dict.fromkeys(...))`), NOT to a single
best-matching name. -/
def create_pypi_lookup_files (channel : String) (relations : List PackageRelation) :
    List (String × PyPIPackageLookup) :=
  let pypi_to_conda := generate_pypi_to_conda_lookups relations
  pypi_to_conda.map (fun pnv =>
    (pnv.1,
      { format_version := "1.0"
        channel := channel
        pypi_name := pnv.1
        conda_versions := pnv.2.map (fun pvl =>
          (pvl.1, dedupKeepFirst (pvl.2.map (·.name)))) }))

/-! ## Mapping extraction (artifact.py) -/

/-- A Python value held in a recipe's `url` field: either a single string or
a list of strings. -/
inductive PyUrl where
  | str (s : String)
  | list (xs : List String)
deriving DecidableEq

/-- The three PyPI index URL heads tested by `check_if_is_direct_url`. -/
def isPyPIIndexUrl (v : String) : Bool :=
  strStartsWith v "https://pypi.io/packages/" ||
  strStartsWith v "https://pypi.org/packages/" ||
  strStartsWith v "https://pypi.python.org/packages/"

/-- `check_if_is_direct_url` (artifact.py, lines 19–37).  Faithful to the
source: `if not url` catches `None`, `""` and `[]`; for a non-string the
list itself is used; for a STRING the source computes `urls = list(url)`,
which in Python is the list of the string's CHARACTERS, each a one-character
string, so the subsequent `all(url.startswith(...))` is `False` for every
nonempty string and the function returns `True`. -/
def check_if_is_direct_url (url : Option PyUrl) : Bool :=
  match url with
  | none => false
  | some (.str s) =>
    if s = "" then false
    else
      let urls := s.data.map (fun c => String.singleton c)
      if urls.all isPyPIIndexUrl then false else true
  | some (.list xs) =>
    if xs = [] then false
    else if xs.all isPyPIIndexUrl then false else true

/-- The `source` value of a rendered recipe: either a single mapping or a
list of mappings; only the `url` field of each mapping is consulted by
`extract_artifact_mapping`, so each element is represented by that field. -/
inductive RecipeSource where
  | dict (url : Option PyUrl)
  | list (elems : List (Option PyUrl))
deriving DecidableEq

/-- The `direct_url` computation of `extract_artifact_mapping` (artifact.py,
lines 88–104): `is_direct_url` is only computed when `source` is a truthy
list, from its first element's `url`; otherwise `direct_url` is `None`.
When the first element is an empty dict its `url` is `None`, so
`check_if_is_direct_url` is `False` and `direct_url` is `None` — consistent
with the source's extra `or not source` guard. -/
def extract_direct_url (source : Option RecipeSource) : Option (List String) :=
  match source with
  | some (.list (first :: _)) =>
    if check_if_is_direct_url first then
      match first with
      | some (.str s) => some [s]
      | some (.list xs) => some xs
      | none => none
    else none
  | _ => none

/-- `normalize` (utils.py): `re.sub(r"[-_.]+", "-", name).lower()` — every
run of `-`, `_`, `.` collapses to a single `-`, then ASCII lowering. -/
def normSepChar (c : Char) : Bool := c == '-' || c == '_' || c == '.'

/-- One `foldr` step of `normalize`: a separator merges into a following
separator run, other characters are lowered. -/
def normalizeStep (c : Char) (acc : List Char) : List Char :=
  if normSepChar c then
    match acc with
    | '-' :: _ => acc
    | _ => '-' :: acc
  else asciiLowerChar c :: acc

/-- PEP 503 `normalize` (utils.py, lines 1–5). -/
def normalize (name : String) : String :=
  ⟨name.data.foldr normalizeStep []⟩

/-- The `"-py"` truncation of the version cleaner (artifact.py, lines 62–64):
`if "-py" in version: version = version[:version.index("-py")]`. -/
def truncAtPy (version : String) : String :=
  if pySubstr "-py" version then takeBeforeFirst "-py" version else version

/-- The version cleaner of `get_pypi_names_and_version` (artifact.py, lines
61–76), parameterised by the external `packaging.version.parse` (given as a
partial parser `parse` with canonical printer `canon`): truncate at `"-py"`;
try to parse; when parsing succeeded re-emit the canonical form; when it
FAILED truncate at the last `"-"` (if any) and keep that string — the source
never re-parses after this truncation. -/
def cleanVersion {V : Type} (parse : String → Option V) (canon : V → String)
    (version : String) : String :=
  let v1 := truncAtPy version
  match parse v1 with
  | some pv => canon pv
  | none => if pySubstr "-" v1 then takeBeforeLastChar '-' v1 else v1

/-- The CLAIM's version cleaner: same as `cleanVersion` except that after
the last-dash truncation the string is RE-PARSED, and the canonical form is
emitted whenever (either) parse succeeds. -/
def cleanVersionClaim {V : Type} (parse : String → Option V) (canon : V → String)
    (version : String) : String :=
  let v1 := truncAtPy version
  match parse v1 with
  | some pv => canon pv
  | none =>
    if pySubstr "-" v1 then
      let v2 := takeBeforeLastChar '-' v1
      match parse v2 with
      | some pv => canon pv
      | none => v2
    else v1

/-- The numeric value of a list of decimal digit characters. -/
def digitsToNat (l : List Char) : Nat :=
  l.foldl (fun n c => n * 10 + (c.toNat - 48)) 0

/-- Decimal digits of `n`, driven by a fuel argument (`fuel ≥ n` always
suffices, since a number has no more digits than its value; the exhausted
case is never reached then). -/
def natDigitsF : Nat → Nat → List Char
  | 0, n => [Char.ofNat (48 + n % 10)]
  | f + 1, n =>
    if n < 10 then [Char.ofNat (48 + n)]
    else natDigitsF f (n / 10) ++ [Char.ofNat (48 + n % 10)]

/-- Decimal rendering of a natural number. -/
def natToDecimal (n : Nat) : String := ⟨natDigitsF n n⟩

/-- Modelled from the external `packaging.version` library (PEP 440),
restricted to the release segment `N(.N)*`: such strings parse to their
numeric components; anything else (e.g. a string containing `"-"`) is
rejected, as `packaging.version.parse` raises on the concrete strings used
below.  Numeric components drop leading zeros, e.g. `"1.01"` ↦ `[1, 1]`. -/
def releaseParse (s : String) : Option (List Nat) :=
  let parts := pySplit s '.'
  if parts.all (fun p => p ≠ "" && p.data.all Char.isDigit) then
    some (parts.map (fun p => digitsToNat p.data))
  else none

/-- Canonical form of a parsed release version: dot-joined components
(`str(Version("1.01")) == "1.1"`). -/
def releaseCanon (ns : List Nat) : String :=
  joinChar '.' (ns.map natToDecimal)

/-- One iteration of the scan loop of `get_pypi_names_and_version`
(artifact.py, lines 45–78), parameterised by the regex `match` step `m`
(the external `re.search` of the dist-info / egg-info patterns, returning
the two groups) and the external version parser: skip vendored paths, skip
non-matches and empty names, and record `normalize(name) → cleaned
version`, the later occurrence of a name overwriting the earlier. -/
def pypiNamesStep {V : Type} (m : String → Option (String × String))
    (parse : String → Option V) (canon : V → String)
    (acc : List (String × String)) (file_name : String) : List (String × String) :=
  if (pathParts file_name).contains "_vendor" || (pathParts file_name).contains "_vendored" then
    acc
  else
    match m file_name with
    | none => acc
    | some (package_name, version) =>
      if package_name = "" then acc
      else alInsert acc (normalize package_name) (cleanVersion parse canon version)

/-- `get_pypi_names_and_version` (artifact.py, lines 40–80). -/
def get_pypi_names_and_version {V : Type} (m : String → Option (String × String))
    (parse : String → Option V) (canon : V → String)
    (files : List String) : List (String × String) :=
  files.foldl (pypiNamesStep m parse canon) []

/-- `MappingEntry` (s3.py, lines 35–52).  All cross-field constraints are
absent in the source model: `pypi_normalized_names` and `versions` are
independent optional fields. -/
structure MappingEntry where
  pypi_normalized_names : Option (List String)
  versions : Option (List (String × String))
  conda_name : String
  package_name : String
  direct_url : Option (List String)
deriving DecidableEq

/-- `extract_artifact_mapping` (artifact.py, lines 83–114), with the result
of `get_pypi_names_and_version(artifact["files"])` passed as `d`:
both optional fields are populated from the same dictionary `d` exactly
when `d` is nonempty. -/
def extract_artifact_mapping (d : List (String × String))
    (source : Option RecipeSource) (conda_name package_name : String) :
    MappingEntry :=
  { pypi_normalized_names := if d.isEmpty then none else some (d.map (·.1))
    versions := if d.isEmpty then none else some d
    conda_name := conda_name
    package_name := package_name
    direct_url := extract_direct_url source }

/-- The raw field data offered to pydantic when validating a `MappingEntry`
(`MappingEntry.model_validate`, s3.py): each field either present or
absent/None. -/
structure MappingEntryInput where
  pypi_normalized_names : Option (List String)
  versions : Option (List (String × String))
  conda_name : Option String
  package_name : Option String
  direct_url : Option (List String)
deriving DecidableEq

/-- Constructor-time validation of `MappingEntry` as the source defines it
(s3.py, lines 35–52): the two required string fields must be present;
NO cross-field validator relates `pypi_normalized_names` and `versions`. -/
def mappingEntryValidate (i : MappingEntryInput) : Option MappingEntry :=
  match i.conda_name, i.package_name with
  | some cn, some pn =>
    some
      { pypi_normalized_names := i.pypi_normalized_names
        versions := i.versions
        conda_name := cn
        package_name := pn
        direct_url := i.direct_url }
  | _, _ => none

/-! ## Artifact fetching backends (conda_forge.py) -/

/-- The outcome of a Python call that may raise: a normal return or an
exception carrying its `str(e)` message. -/
inductive BackendOutcome (A : Type) where
  | ok (result : Option A)
  | error (msg : String)
deriving DecidableEq

/-- The fallback-triggering error fragments of `get_artifact_info`
(conda_forge.py, lines 447–456), matched by substring against `str(e)`. -/
def fallbackTriggers : List String :=
  ["while scanning for the next token", "YAML", "Invalid data stream",
   "invalid header", "Truncated"]

/-- `download_and_extract_artifact` (conda_forge.py, lines 168–217) at the
level C6 needs: it raises a `ValueError` unless the artifact is a `.conda`;
its network/extraction outcome is the parameter `result`. -/
def download_and_extract_artifact {A : Type} (artifact : String)
    (result : Option A) : BackendOutcome A :=
  if strEndsWith artifact ".conda" then .ok result
  else .error ("This function only supports .conda artifacts. " ++ artifact ++ " was given")

/-- `download_and_extract_tar_bz2_artifact` (conda_forge.py, lines 120–165)
at the level C6 needs: it raises a `ValueError` unless the artifact is a
`.tar.bz2`; its network/extraction outcome is the parameter `result`. -/
def download_and_extract_tar_bz2_artifact {A : Type} (artifact : String)
    (result : Option A) : BackendOutcome A :=
  if strEndsWith artifact ".tar.bz2" then .ok result
  else .error ("This function only supports .tar.bz2 artifacts. " ++ artifact ++ " was given")

/-- `get_artifact_info` (conda_forge.py, lines 422–472), with the outcomes
of the external I/O steps passed as parameters: `streamedOutcome` is the
outcome of the range-streamed backend (`get_streamed_artifact_data` piped
through `_patched_info_json_from_tar_generator`), `tarBz2DownloadResult`
and `downloadResult` the results of the two full-download helpers, and
`ociResult` the result of `get_artifact_info_as_json`.  For a `.tar.bz2`
under the `streamed` backend, an exception whose message contains one of
`fallbackTriggers` downgrades to the full download; any other exception is
re-raised. -/
def get_artifact_info {A : Type} (backend : String) (artifact : String)
    (downloadResult : Option A) (streamedOutcome : BackendOutcome A)
    (tarBz2DownloadResult : Option A) (ociResult : Option A) :
    BackendOutcome A :=
  if backend = "download" then
    download_and_extract_artifact artifact downloadResult
  else if backend = "streamed" ∧ strEndsWith artifact ".tar.bz2" then
    match streamedOutcome with
    | .ok r => .ok r
    | .error e =>
      if fallbackTriggers.any (fun err => pySubstr err e) then
        download_and_extract_tar_bz2_artifact artifact tarBz2DownloadResult
      else .error e
  else .ok ociResult

/-! ## `_patched_info_json_from_tar_generator` (conda_forge.py, 475–546) -/

/-- The decoded payload of one tar member, as produced by the external
parsers the source applies per member name (`json.loads`, `YAML.load`,
`_extract_read`): opaque parsed values are carried as their projections
used by the code.  `jsonIndex` carries the opaque parsed object plus its
`.get("name", "")` / `.get("version", "")`; `jsonPaths` carries the list of
`p["_path"]` strings; `metaYaml` carries the raw text (for the template
test) and the opaque parsed value. -/
inductive MemberPayload where
  | jsonIndex (parsed : String) (name : String) (version : String)
  | jsonAbout (parsed : String)
  | yamlConfig (parsed : String)
  | text (raw : String)
  | jsonPaths (all_paths : List String)
  | metaYaml (raw : String) (parsed : String)
deriving DecidableEq

/-- One member of the `info` tar: its path inside the archive and its
decoded payload. -/
structure TarMember where
  path : String
  content : MemberPayload
deriving DecidableEq

/-- The `data` record assembled by `_patched_info_json_from_tar_generator`,
opaque parsed values carried as in `MemberPayload`. -/
structure ArtifactDataModel where
  name : String
  version : String
  index : Option String
  about : Option String
  conda_build_config : Option String
  raw_recipe : String
  rendered_recipe : Option String
  files : List String
deriving DecidableEq

/-- The initial `data` dict of the generator (conda_forge.py, lines 480–490). -/
def initialArtifactData : ArtifactDataModel :=
  { name := "", version := "", index := none, about := none,
    conda_build_config := none, raw_recipe := "", rendered_recipe := none,
    files := [] }

/-- The running state of the member loop: the `data` record and the
`old_files` fallback. -/
structure TarLoopState where
  data : ArtifactDataModel
  old_files : Option (List String)
deriving DecidableEq

/-- The suffix filter applied to file lists (`if skip_files_suffixes: ...
not f.lower().endswith(skip_files_suffixes)`); an empty suffix tuple means
no filtering. -/
def applySuffixFilter (suffixes : List String) (files : List String) : List String :=
  if suffixes.isEmpty then files
  else files.filter (fun f => !(suffixes.any (fun suf => strEndsWith (asciiLower f) suf)))

/-- `member.name` normalised as in the source (conda_forge.py, lines
497–499): drop a leading `info` component when more components follow. -/
def memberParts (p : String) : List String :=
  let parts := pathParts p
  if parts.length > 1 && parts.head? == some "info" then parts.tail else parts

/-- One iteration of the member loop of
`_patched_info_json_from_tar_generator` (conda_forge.py, lines 496–532).
Members whose first (post-`info`) component is `test` or `licenses` are
skipped — NOT `tests`; dispatch is on the member's final path component.
A payload that does not fit the dispatched branch corresponds to an input
the external parser would have rejected and leaves the state unchanged. -/
def processMember (skip_files_suffixes : List String) (st : TarLoopState)
    (m : TarMember) : TarLoopState :=
  let parts := memberParts m.path
  if parts.head? == some "test" || parts.head? == some "licenses" then st
  else
    match parts.getLast?, m.content with
    | some "index.json", .jsonIndex parsed n v =>
      { st with data := { st.data with name := n, version := v, index := some parsed } }
    | some "about.json", .jsonAbout parsed =>
      { st with data := { st.data with about := some parsed } }
    | some "conda_build_config.yaml", .yamlConfig parsed =>
      { st with data := { st.data with conda_build_config := some parsed } }
    | some "files", .text raw =>
      { st with old_files := some (pySplitlines raw) }
    | some "paths.json", .jsonPaths all_paths =>
      { st with data := { st.data with files := applySuffixFilter skip_files_suffixes all_paths } }
    | some "meta.yaml.template", .text raw =>
      { st with data := { st.data with raw_recipe := raw } }
    | some "meta.yaml", .metaYaml raw parsed =>
      if (pySubstr "\x7b\x7b" raw || pySubstr "\x7b%" raw) && st.data.raw_recipe = "" then
        { st with data := { st.data with raw_recipe := raw } }
      else
        { st with data := { st.data with rendered_recipe := some parsed } }
    | _, _ => st

/-- `_patched_info_json_from_tar_generator` (conda_forge.py, lines 475–546):
fold the member loop, then fall back to the legacy `files` member (suffix-
filtered) when `paths.json` produced nothing, and return the record only
when a name was found. -/
def patched_info_json_from_tar_generator (members : List TarMember)
    (skip_files_suffixes : List String) : Option ArtifactDataModel :=
  let st := members.foldl (processMember skip_files_suffixes) ⟨initialArtifactData, none⟩
  let data :=
    match st.data.files, st.old_files with
    | [], some old => { st.data with files := applySuffixFilter skip_files_suffixes old }
    | _, _ => st.data
  if data.name ≠ "" then some data else none

/-! ## Yank configuration (yank.py) -/

/-- `PackageInfo` (yank.py): one yank entry. -/
structure PackageInfo where
  name : String
  platforms : List String
  channels : List String
deriving DecidableEq

/-- `YankConfig` (yank.py). -/
structure YankConfig where
  packages : List PackageInfo
deriving DecidableEq

/-- `YankConfig.should_yank` (yank.py, lines 36–44): an entry matches when
the artifact name equals the entry name, the subdir is among the entry's
platforms, and the channel among the entry's channels. -/
def should_yank (cfg : YankConfig) (artifact_name subdir channel : String) : Bool :=
  cfg.packages.any (fun p =>
    artifact_name == p.name && p.platforms.contains subdir && p.channels.contains channel)

/-! ## Shard worker (internals/updater.py) -/

/-- `IndexMapping` (s3.py, lines 58–63): a pydantic `RootModel` whose single
field `root` maps sha256 hashes to `MappingEntry`. -/
structure IndexMapping where
  root : List (String × MappingEntry)
deriving DecidableEq

/-- The items yielded by pydantic v2's `BaseModel.__iter__`: `(field_name,
field_value)` tuples — for `IndexMapping`, the single tuple
`("root", <dict>)`. -/
inductive PyModelItem where
  | field (name : String) (value : List (String × MappingEntry))
deriving DecidableEq

/-- `iter(model)` for the pydantic model `IndexMapping`. -/
def modelIterItems (m : IndexMapping) : List PyModelItem :=
  [.field "root" m.root]

/-- CPython equality between a `str` and a `(str, dict)` tuple: always
`False` (no `__eq__` across these types). -/
def pyStrEqItem (_x : String) : PyModelItem → Bool
  | .field _ _ => false

/-- Python `x in model` for a pydantic v2 model: `BaseModel` defines no
`__contains__`, so membership falls back to `__iter__`, comparing `x`
against each yielded `(field_name, value)` tuple — never equal for a
string `x`.  (`remover.py` writes `sha256 in existing_mapping_data.root`,
membership in the underlying dict; `internals/updater.py` line 178 omits
the `.root`.) -/
def pydanticModelContains (x : String) (m : IndexMapping) : Bool :=
  (modelIterItems m).any (pyStrEqItem x)

/-- The record-selection step of the shard worker's `main`
(internals/updater.py, lines 171–199): returns the backend the record is
enqueued with, or `none` when it is skipped.  The filename must begin with
the shard's letter; the baseline test is `if sha256 not in
existing_mapping_data:` — pydantic-model membership, see
`pydanticModelContains`; then the extension/channel dispatch. -/
def select_backend (letter : String) (channel : String) (baseline : IndexMapping)
    (package_name : String) (sha256 : String) : Option String :=
  if !(strStartsWith package_name letter) then none
  else if pydanticModelContains sha256 baseline then none
  else if strEndsWith package_name ".conda" then some "streamed"
  else if strEndsWith package_name ".tar.bz2" && channel == "conda-forge" then some "oci"
  else if strEndsWith package_name ".tar.bz2" && channel == "pytorch" then some "streamed"
  else none

/-- The fields of a fetched artifact consumed by the worker's result loop:
its `index.json` name, the rendered recipe's `source`, and the result of
`get_pypi_names_and_version(artifact["files"])`. -/
structure WorkerArtifact where
  name : String
  pypi_names_and_versions : List (String × String)
  source : Option RecipeSource
deriving DecidableEq

/-- The per-result processing of the shard worker's `main`
(internals/updater.py, lines 221–263): when an artifact was fetched, build
the mapping entry (the loop body inlines exactly the logic of
`extract_artifact_mapping`) and store it under the record's sha256.  The
guard `if sha not in names_mapping:` is again pydantic-model membership.
NO yank filter is consulted anywhere in this function. -/
def worker_process_result (names_mapping : IndexMapping) (sha : String)
    (package_name : String) (artifact : Option WorkerArtifact) : IndexMapping :=
  match artifact with
  | none => names_mapping
  | some art =>
    let entry := extract_artifact_mapping art.pypi_names_and_versions art.source
      art.name package_name
    if pydanticModelContains sha names_mapping then names_mapping
    else ⟨alInsert names_mapping.root sha entry⟩

/-! ## PyPI lookup store (s3.py and relations_updater.py) -/

/-- One stored lookup object: its body bytes (modelled as a string) and the
`content_sha256` it carries as object metadata, if any. -/
structure LookupObject where
  data : String
  metaSha : Option String
deriving DecidableEq

/-- The lookup objects stored under `pypi-to-conda-v1/<channel>/`. -/
structure LookupStore where
  objects : List (String × LookupObject)
deriving DecidableEq

/-- `S3.upload_pypi_lookup_file` (s3.py, lines 190–208): the signature is
`(pypi_name, data, channel)` and the body is a bare `upload_fileobj` — no
`Metadata`/`ExtraArgs` argument, so the stored object carries NO
`content_sha256` metadata.  (Its caller in relations_updater.py line 304
passes a fourth `info["hash"]` argument, which this signature rejects.) -/
def upload_pypi_lookup_file (store : LookupStore) (pypi_name : String)
    (data : String) : LookupStore :=
  ⟨alInsert store.objects pypi_name ⟨data, none⟩⟩

/-- Modelled from the spec: `head_pypi_lookup_hash` /
`S3.get_pypi_lookup_file_hash` is called by `_check_file_needs_update`
(relations_updater.py, line 185) but no such method exists in s3.py; per
spec §4.5 it HEADs the object and returns its stored `content_sha256`
metadata, or none when the object or the metadata is absent. -/
def get_pypi_lookup_file_hash (store : LookupStore) (pypi_name : String) :
    Option String :=
  (alGet store.objects pypi_name).bind (·.metaSha)

/-- `S3.get_pypi_lookup_file` (s3.py, lines 210–230): the object's bytes,
or none when absent. -/
def get_pypi_lookup_file (store : LookupStore) (pypi_name : String) :
    Option String :=
  (alGet store.objects pypi_name).map (·.data)

/-- Modelled from the spec: stand-in for `hashlib.sha256(...).hexdigest()`
(`_compute_file_hash`, relations_updater.py, lines 156–158) — an external
library; the claims settled below do not depend on the digest function's
internals, so it is a parameter `h` of the checker and instantiated with
`c2Hash` in concrete statements. -/
def c2Hash (s : String) : String := "sha256-model:" ++ s

/-- `_check_file_needs_update` (relations_updater.py, lines 161–198):
HEAD for the stored content hash; when absent, GET the object (absent ⇒
upload) and hash its bytes; upload exactly when the hashes differ. -/
def check_file_needs_update (h : String → String) (store : LookupStore)
    (pypi_name : String) (new_hash : String) : Bool :=
  match get_pypi_lookup_file_hash store pypi_name with
  | some existing_hash => existing_hash != new_hash
  | none =>
    match get_pypi_lookup_file store pypi_name with
    | none => true
    | some existing_data => h existing_data != new_hash

/-! ## Concrete instances used by the claim theorems -/

/-- The relation contributed by `numpy-1.26.4-py311h_0.conda` carrying PyPI
`numpy 1.26.4` (the repository's own `test_levenshtein.py` scenario). -/
def c1RelNumpy : PackageRelation :=
  { conda_name := "numpy", conda_filename := "numpy-1.26.4-py311h_0.conda",
    conda_hash := "aaaa", pypi_name := "numpy", pypi_version := "1.26.4",
    channel := "conda-forge", direct_url := none }

/-- The relation contributed by `numpy-base-1.26.4-py311h_0.conda` carrying
the same PyPI `numpy 1.26.4`. -/
def c1RelNumpyBase : PackageRelation :=
  { conda_name := "numpy-base", conda_filename := "numpy-base-1.26.4-py311h_0.conda",
    conda_hash := "bbbb", pypi_name := "numpy", pypi_version := "1.26.4",
    channel := "conda-forge", direct_url := none }

/-- The store after `upload_pypi_lookup_file` stores body `"BODY"` for
`numpy` into an empty bucket. -/
def c2StoreAfterUpload : LookupStore :=
  upload_pypi_lookup_file ⟨[]⟩ "numpy" "BODY"

/-- The spec's scenario E4 source URL. -/
def c3Url : String := "https://pypi.org/packages/source/f/foo/foo-1.0.tar.gz"

/-- A yank configuration listing `pyqt` on `osx-arm64` in `conda-forge`
(the example named in yank.py's own module comment). -/
def c4Cfg : YankConfig := ⟨[⟨"pyqt", ["osx-arm64"], ["conda-forge"]⟩]⟩

/-- The fetched `pyqt` artifact as consumed by the worker's result loop. -/
def c4Art : WorkerArtifact := ⟨"pyqt", [("pyqt5", "5.15.7")], none⟩

/-- A baseline index snapshot whose only key is the sha256 `"aaa"`. -/
def c5Entry : MappingEntry := ⟨none, none, "numpy", "numpy-0.9-0.conda", none⟩

/-- The baseline index snapshot loaded by the shard worker. -/
def c5Baseline : IndexMapping := ⟨[("aaa", c5Entry)]⟩

/-- The result of the external `re.search` of the dist-info pattern
`([^/]+)-(\d+[^/]*)\.dist-info/METADATA` on the one concrete path used in
the C7 statements: groups `("foo", "1.01-x")`. -/
def c7Matcher : String → Option (String × String) := fun f =>
  if f = "site-packages/foo-1.01-x.dist-info/METADATA" then some ("foo", "1.01-x")
  else none

/-- The raw field data of a partially-populated mapping: names present,
versions absent. -/
def c8PartialInput : MappingEntryInput :=
  ⟨some ["foo"], none, some "x", some "y", none⟩

/-- A tar member living under the `tests/` directory of the `info` area. -/
def c9TestsMember : TarMember := ⟨"info/tests/about.json", .jsonAbout "ABOUT"⟩

/-- A small member list: an `index.json` and a `paths.json` holding one
`.py` file and one `.pyc` file. -/
def c9WitnessMembers : List TarMember :=
  [⟨"info/index.json", .jsonIndex "IDX" "pkg" "1"⟩,
   ⟨"info/paths.json", .jsonPaths ["lib/a.py", "b.pyc"]⟩]

/-- The artifact data extracted from `c9WitnessMembers`. -/
def c9WitnessData : ArtifactDataModel :=
  { name := "pkg", version := "1", index := some "IDX", about := none,
    conda_build_config := none, raw_recipe := "", rendered_recipe := none,
    files := ["lib/a.py"] }

/-- The property the suffix filter enforces: the lowercased path ends in
neither `.pyc` nor `.txt`. -/
def fileSuffixOk (f : String) : Prop :=
  strEndsWith (asciiLower f) ".pyc" = false ∧ strEndsWith (asciiLower f) ".txt" = false

/-! ## Claim theorems -/

/-- C1: the claim says the derived `PyPIPackageLookup` maps each
`pypi_version` to exactly ONE conda name, chosen by minimal Levenshtein
distance with lexicographic tie-break.  Evaluating the source's
`create_pypi_lookup_files` on the repository's own two-relation test
scenario (`numpy` and `numpy-base` both providing PyPI `numpy 1.26.4`)
yields the two-element LIST `["numpy", "numpy-base"]` for version
`"1.26.4"` — no best-match selection exists in the source. -/
theorem c1_lookup_keeps_all_names :
    (alGet (create_pypi_lookup_files "conda-forge" [c1RelNumpy, c1RelNumpyBase])
        "numpy").map (fun l => alGet l.conda_versions "1.26.4") =
      some (some ["numpy", "numpy-base"]) ∧
    (["numpy", "numpy-base"] : List String).length ≠ 1 := by
  exact ⟨by decide, by decide⟩

/-- C2: the claim says every upload attaches `content_sha256` metadata equal
to the SHA256 of the body.  Evaluating the source's
`upload_pypi_lookup_file` (which passes no metadata) shows the stored
object carries NO `content_sha256`, so the subsequent HEAD-based check finds
none and only the legacy GET fallback of `check_file_needs_update` saves
the comparison. -/
theorem c2_upload_attaches_no_metadata :
    get_pypi_lookup_file c2StoreAfterUpload "numpy" = some "BODY" ∧
    get_pypi_lookup_file_hash c2StoreAfterUpload "numpy" = none ∧
    check_file_needs_update c2Hash c2StoreAfterUpload "numpy" (c2Hash "BODY") = false := by
  exact ⟨rfl, rfl, rfl⟩

/-- C3: the claim (and the spec's scenario E4) says a single PyPI-index
source URL yields NO `direct_url`.  Evaluating the source shows
`check_if_is_direct_url` returns `True` on that URL (because
`urls = list(url)` explodes a string into characters), so the extracted
entry HAS `direct_url = [that URL]`. -/
theorem c3_pypi_url_yields_direct_url :
    check_if_is_direct_url (some (.str c3Url)) = true ∧
    (extract_artifact_mapping [("foo", "1.0")] (some (.list [some (.str c3Url)]))
        "foo" "foo-1.0-0.tar.bz2").direct_url = some [c3Url] := by
  exact ⟨by decide, by decide⟩

/-- C4: the claim says an artifact matched by the yank configuration is
never inserted into the shard's partial index.  Evaluating the worker's
per-result processing on a `pyqt` artifact that `should_yank` matches shows
the entry IS inserted — the worker consults no yank configuration. -/
theorem c4_yanked_artifact_inserted :
    should_yank c4Cfg "pyqt" "osx-arm64" "conda-forge" = true ∧
    alGet (worker_process_result ⟨[]⟩ "cafe01" "pyqt-5.15.7-py311h7203e35_3.conda"
        (some c4Art)).root "cafe01" =
      some (extract_artifact_mapping [("pyqt5", "5.15.7")] none "pyqt"
        "pyqt-5.15.7-py311h7203e35_3.conda") := by
  exact ⟨by decide, by decide⟩

/-- C5: the claim says a record whose sha256 is already a key of the
baseline snapshot is skipped.  Evaluating the worker's record selection on
a record whose sha256 `"aaa"` IS a key of the baseline shows it is enqueued
anyway: `sha256 not in existing_mapping_data` tests membership on the
pydantic model (always false for a string), not on its `root` dict. -/
theorem c5_baseline_member_enqueued :
    alGet c5Baseline.root "aaa" = some c5Entry ∧
    pydanticModelContains "aaa" c5Baseline = false ∧
    select_backend "n" "conda-forge" c5Baseline "numpy-1.0-0.conda" "aaa" =
      some "streamed" := by
  exact ⟨rfl, rfl, rfl⟩

/-- C6: for a `.tar.bz2` fetched through the range-streamed backend, an
exception whose message contains one of the fallback triggers makes
`get_artifact_info` return the full-download backend's result (or absence),
and any other exception propagates unchanged. -/
theorem c6_streamed_fallback {A : Type} (artifact e : String)
    (downloadResult tarBz2DownloadResult ociResult : Option A)
    (h : strEndsWith artifact ".tar.bz2" = true) :
    get_artifact_info "streamed" artifact downloadResult (.error e)
        tarBz2DownloadResult ociResult =
      (if fallbackTriggers.any (fun err => pySubstr err e) then
        BackendOutcome.ok tarBz2DownloadResult
      else BackendOutcome.error e) := by
  simp [get_artifact_info, download_and_extract_tar_bz2_artifact, h]

/-- C6 witness: a `Truncated` error on a `.tar.bz2` uses the full-download
result, a `boom` error propagates. -/
theorem c6_streamed_fallback_witness :
    get_artifact_info "streamed" "pkg-1.0-0.tar.bz2" (none : Option Nat)
        (.error "Truncated tar") (some 7) none = .ok (some 7) ∧
    get_artifact_info "streamed" "pkg-1.0-0.tar.bz2" (none : Option Nat)
        (.error "boom") (some 7) none = .error "boom" := by
  constructor
  · rw [c6_streamed_fallback _ _ _ _ _ (by decide)]; decide
  · rw [c6_streamed_fallback _ _ _ _ _ (by decide)]; decide

/-- C7 counterexample: the claim says that after truncating at the last
`"-"` the string is RE-PARSED and the canonical form emitted when that
parse succeeds.  On the matched path `site-packages/foo-1.01-x.dist-info/
METADATA` (version group `"1.01-x"`, whose parse fails, and whose truncation
`"1.01"` parses with canonical form `"1.1"`), the source emits the
truncated string `"1.01"`, not the canonical `"1.1"` the claim requires —
the source never re-parses. -/
theorem c7_counterexample :
    get_pypi_names_and_version c7Matcher releaseParse releaseCanon
        ["site-packages/foo-1.01-x.dist-info/METADATA"] = [("foo", "1.01")] ∧
    cleanVersionClaim releaseParse releaseCanon "1.01-x" = "1.1" ∧
    ("1.01" : String) ≠ "1.1" := by
  exact ⟨by decide, by decide, by decide⟩

/-- C7 (amended): for every matched path, the version group is truncated at
`"-py"`; when the parse of that string succeeds the canonical parsed form is
emitted; when it fails, the string truncated at its last `"-"` (when a dash
remains, otherwise the string itself) is kept WITHOUT re-parsing, so no
canonicalisation happens on that path. -/
theorem c7_amended {V : Type} (parse : String → Option V) (canon : V → String)
    (version : String) :
    (∀ v, parse (truncAtPy version) = some v →
      cleanVersion parse canon version = canon v) ∧
    (parse (truncAtPy version) = none →
      cleanVersion parse canon version =
        (if pySubstr "-" (truncAtPy version) then
          takeBeforeLastChar '-' (truncAtPy version)
        else truncAtPy version)) := by
  constructor
  · intro v hv
    simp [cleanVersion, hv]
  · intro hn
    simp [cleanVersion, hn]

/-- C7 witness: the amended theorem applied at the failing parse of
`"1.01-x"` with the modelled PEP 440 parser. -/
theorem c7_amended_witness :
    cleanVersion releaseParse releaseCanon "1.01-x" =
      (if pySubstr "-" (truncAtPy "1.01-x") then
        takeBeforeLastChar '-' (truncAtPy "1.01-x")
      else truncAtPy "1.01-x") :=
  (c7_amended releaseParse releaseCanon "1.01-x").2 (by decide)

/-- C8 counterexample: the claim says the typed decoder rejects a mapping
whose `pypi_normalized_names` is present but whose `versions` is absent.
The source's `MappingEntry` has no cross-field validator, so
`model_validate` accepts exactly such an input. -/
theorem c8_counterexample :
    mappingEntryValidate c8PartialInput =
      some ⟨some ["foo"], none, "x", "y", none⟩ ∧
    (some ["foo"] : Option (List String)) ≠ none := by
  exact ⟨rfl, by decide⟩

/-- C8 (amended): every `MappingEntry` produced by the mapping extractor
satisfies the invariant — `pypi_normalized_names` is absent iff `versions`
is absent, and when present the names are exactly the versions' keys (in
order); the typed decoder, however, performs no cross-field validation and
accepts a partially-populated entry. -/
theorem c8_amended :
    (∀ (d : List (String × String)) (source : Option RecipeSource) (cn pn : String),
      ((extract_artifact_mapping d source cn pn).versions).map
          (fun l => l.map Prod.fst) =
        (extract_artifact_mapping d source cn pn).pypi_normalized_names) ∧
    mappingEntryValidate c8PartialInput =
      some ⟨some ["foo"], none, "x", "y", none⟩ := by
  constructor
  · intro d source cn pn
    by_cases hd : d.isEmpty <;> simp [extract_artifact_mapping, hd]
  · rfl

/-- C10 counterexample: the claim describes the name as the filename with a
`.conda` or `.tar.bz2` EXTENSION removed, but the source's `str.replace`
removes every occurrence: on `"foo-1.0.conda1-0.tar.bz2"` the source
returns version `"1.01"` (the inner `".conda"` was deleted), while the
claim's reading returns `"1.0.conda1"`. -/
theorem c10_counterexample :
    parse_conda_filename "foo-1.0.conda1-0.tar.bz2" = ("1.01", "0") ∧
    parse_conda_filename_claim "foo-1.0.conda1-0.tar.bz2" = ("1.0.conda1", "0") ∧
    parse_conda_filename "foo-1.0.conda1-0.tar.bz2" ≠
      parse_conda_filename_claim "foo-1.0.conda1-0.tar.bz2" := by
  exact ⟨by decide, by decide, by decide⟩

/-- C10 (amended): `parse_conda_filename` is total; writing `name` for the
filename with EVERY occurrence of `".conda"` and then `".tar.bz2"` removed,
when `name` has fewer than three dash-separated fields the result is
`("unknown", "unknown")`, and otherwise it is the pair of the second-to-last
and last fields. -/
theorem c10_amended (filename : String) :
    parse_conda_filename filename =
      (let fields := pySplit (pyReplace (pyReplace filename ".conda" "") ".tar.bz2" "") '-'
       if fields.length < 3 then ("unknown", "unknown")
       else (fields.getD (fields.length - 2) "", fields.getD (fields.length - 1) "")) := by
  simp only [parse_conda_filename, pyRsplitDash2]
  set ps := pySplit (pyReplace (pyReplace filename ".conda" "") ".tar.bz2" "") '-' with hps
  by_cases hle : ps.length ≤ 3
  · rw [if_pos hle]
    by_cases h3 : ps.length ≥ 3
    · rw [if_pos h3, if_neg (by omega)]
    · rw [if_neg h3, if_pos (by omega)]
  · rw [if_neg hle]
    set parts := joinChar '-' (ps.take (ps.length - 2)) :: ps.drop (ps.length - 2) with hparts
    have hlen : parts.length = 3 := by
      rw [hparts]
      simp only [List.length_cons, List.length_drop]
      omega
    rw [if_pos (by omega), if_neg (by omega), hlen]
    rw [show (3 : Nat) - 2 = 1 from rfl, show (3 : Nat) - 1 = 2 from rfl]
    have hdrop : ∀ i : Nat, (ps.drop (ps.length - 2)).getD i "" = ps.getD (ps.length - 2 + i) "" := by
      intro i
      simp [List.getD_eq_getElem?_getD, List.getElem?_drop]
    have e1 : parts.getD 1 "" = (ps.drop (ps.length - 2)).getD 0 "" := by
      rw [hparts]
      rfl
    have e2 : parts.getD 2 "" = (ps.drop (ps.length - 2)).getD 1 "" := by
      rw [hparts]
      rfl
    have h1 : ps.length - 2 + 0 = ps.length - 2 := by omega
    have h2 : ps.length - 2 + 1 = ps.length - 1 := by omega
    rw [e1, e2, hdrop 0, hdrop 1, h1, h2]

/-- Every member of the filtered file list satisfies `fileSuffixOk`. -/
theorem mem_applySuffixFilter_ok (l : List String) (f : String)
    (hf : f ∈ applySuffixFilter [".pyc", ".txt"] l) : fileSuffixOk f := by
  simp [applySuffixFilter, fileSuffixOk] at hf ⊢
  exact hf.2

/-- One member-loop step preserves `fileSuffixOk` of every listed file. -/
theorem processMember_files_ok (st : TarLoopState) (m : TarMember)
    (hst : ∀ f ∈ st.data.files, fileSuffixOk f) :
    ∀ f ∈ (processMember [".pyc", ".txt"] st m).data.files, fileSuffixOk f := by
  intro f hf
  simp only [processMember] at hf
  split at hf
  · exact hst f hf
  · split at hf
    · exact hst f hf
    · exact hst f hf
    · exact hst f hf
    · exact hst f hf
    · exact mem_applySuffixFilter_ok _ f hf
    · exact hst f hf
    · split at hf
      · exact hst f hf
      · exact hst f hf
    · exact hst f hf

/-- Folding the member loop preserves `fileSuffixOk` of every listed file. -/
theorem foldl_processMember_files_ok (members : List TarMember) (st : TarLoopState)
    (hst : ∀ f ∈ st.data.files, fileSuffixOk f) :
    ∀ f ∈ (members.foldl (processMember [".pyc", ".txt"]) st).data.files, fileSuffixOk f := by
  induction members generalizing st with
  | nil => exact hst
  | cons m ms ih => exact ih _ (processMember_files_ok st m hst)

/-- C9 counterexample: the claim says files under `tests/` are skipped, but
a member at `info/tests/about.json` is processed by
`_patched_info_json_from_tar_generator`'s member loop (only `test/` and
`licenses/` are in its skip set) and populates `about`. -/
theorem c9_counterexample :
    processMember [".pyc", ".txt"] ⟨initialArtifactData, none⟩ c9TestsMember ≠
      ⟨initialArtifactData, none⟩ ∧
    (processMember [".pyc", ".txt"] ⟨initialArtifactData, none⟩ c9TestsMember).data.about =
      some "ABOUT" := by
  exact ⟨by decide, by decide⟩

/-- C9 (amended): in `_patched_info_json_from_tar_generator`, members whose
first (post-`info`) component is `test` or `licenses` are skipped — `tests/`
is NOT in the skip set of this backend (only the zstd stream extractor also
skips `tests/`); and with the default suffixes, every path in the resulting
`files` list satisfies `fileSuffixOk`, whether it came from `paths.json` or
from the legacy `files` member. -/
theorem c9_amended :
    (∀ (suffixes : List String) (st : TarLoopState) (m : TarMember),
      (memberParts m.path).head? = some "test" ∨
          (memberParts m.path).head? = some "licenses" →
        processMember suffixes st m = st) ∧
    (∀ (members : List TarMember) (d : ArtifactDataModel),
      patched_info_json_from_tar_generator members [".pyc", ".txt"] = some d →
        ∀ f ∈ d.files, fileSuffixOk f) := by
  constructor
  · intro suffixes st m h
    rcases h with h | h <;> simp [processMember, h]
  · intro members d hd f hfd
    have hbase :
        ∀ f ∈ ((members.foldl (processMember [".pyc", ".txt"])
            ⟨initialArtifactData, none⟩).data.files), fileSuffixOk f :=
      foldl_processMember_files_ok members _
        (by intro f hf; simp [initialArtifactData] at hf)
    simp only [patched_info_json_from_tar_generator] at hd
    split at hd
    · rw [Option.some.injEq] at hd
      subst hd
      revert hfd
      split
      · intro hfd
        exact mem_applySuffixFilter_ok _ f hfd
      · intro hfd
        exact hbase f hfd
    · exact absurd hd (by simp)

/-- C9 witness: the amended theorem applied to a concrete member list whose
`paths.json` holds `lib/a.py` and `b.pyc`. -/
theorem c9_amended_witness : fileSuffixOk "lib/a.py" :=
  c9_amended.2 c9WitnessMembers c9WitnessData (by rfl) "lib/a.py" (by decide)


end Parselmouth
